import Mathlib

/-!
Shallow embedding of the resilient KOSHA search proxy (final handler
iteration of the source: the Next.js API route with circuit breaker,
statute-table link resolution, defensive normalization and TTL cache).
Machine numerics are modelled over `Int` (the integer-literal fragment of
JS numbers); timestamps are `Nat` milliseconds.
-/

namespace Safety

/-! ### JS values and number coercion (`toSafeNumber`, source lines 109-110) -/

/-- Result of JS `ToNumber`: either a finite number (integer fragment),
an infinity, or `NaN`. -/
inductive JSNum where
  | nan
  | posInf
  | negInf
  | finite (n : Int)
deriving DecidableEq, Repr

/-- The fragment of JS values that can arrive in the request arguments. -/
inductive JSValue where
  | num (n : Int)
  | str (s : String)
  | boolean (b : Bool)
  | null
  | undef
deriving DecidableEq, Repr

/-- Strip whitespace from both ends of a character list. -/
def trimChars (cs : List Char) : List Char :=
  ((cs.dropWhile Char.isWhitespace).reverse.dropWhile Char.isWhitespace).reverse

/-- Whitespace trim (JS `trim`, modelled over `Char.isWhitespace`). -/
def jsTrim (s : String) : String :=
  String.mk (trimChars s.data)

/-- Value of a nonempty all-digit character list, `none` otherwise. -/
def digitsToNat? (cs : List Char) : Option Nat :=
  if cs.isEmpty then none
  else if cs.all Char.isDigit then
    some (cs.foldl (fun a c => a * 10 + (c.toNat - 48)) 0)
  else none

/-- JS `Number(string)` on the integer-literal fragment: trimmed empty
string is `0`, optional sign followed by digits is that integer,
`Infinity` forms are infinite, anything else is `NaN`.  Decimal points,
exponents and hex literals are outside the modelled fragment. -/
def parseJSNumber (s : String) : JSNum :=
  let t := jsTrim s
  if t = "" then .finite 0
  else if t = "Infinity" then .posInf
  else if t = "+Infinity" then .posInf
  else if t = "-Infinity" then .negInf
  else
    match t.data with
    | '-' :: rest =>
      match digitsToNat? rest with
      | some n => .finite (-(n : Int))
      | none => .nan
    | '+' :: rest =>
      match digitsToNat? rest with
      | some n => .finite (n : Int)
      | none => .nan
    | cs =>
      match digitsToNat? cs with
      | some n => .finite (n : Int)
      | none => .nan

/-- JS unary `+v` coercion. -/
def toNumber : JSValue → JSNum
  | .num n => .finite n
  | .str s => parseJSNumber s
  | .boolean b => .finite (if b then 1 else 0)
  | .null => .finite 0
  | .undef => .nan

/-- Source: `const toSafeNumber = (v, def) => Number.isFinite(+v) && +v > 0 ? +v : def`. -/
def toSafeNumber (v : JSValue) (dflt : Int) : Int :=
  match toNumber v with
  | .finite n => if 0 < n then n else dflt
  | _ => dflt

/-! ### Raw and normalized items -/

/-- One upstream record (`KoshaBodyItem`).  `filepath`, `content` and
`highlight_content` may be absent at runtime (the code guards them with
`??`), hence `Option`.  `score` is passed through untouched, modelled as
an integer. -/
structure KoshaBodyItem where
  doc_id : String
  title : String
  category : String
  filepath : Option String
  content : Option String
  highlight_content : Option String
  score : Option Int
deriving DecidableEq, Repr

/-- One outward record (`SlimItem`): `filepath` is mandatory here. -/
structure SlimItem where
  doc_id : String
  title : String
  category : String
  filepath : String
  content_snippet : String
  score : Option Int
deriving DecidableEq, Repr

/-! ### `splitTitle` (source lines 78-82) -/

/-- Result of `splitTitle`. -/
structure TitleParts where
  article : Option String
  inferredLawName : String
deriving DecidableEq, Repr

/-- After a `제` character: matches the regex tail whitespace-digits-whitespace-`조`
and yields the digit group.  The greedy digit run of `\d+` is the only
candidate, since shrinking it leaves a digit where `조` is required. -/
def matchArticleAfterJe (cs : List Char) : Option String :=
  let r1 := cs.dropWhile Char.isWhitespace
  let ds := r1.takeWhile Char.isDigit
  if ds.isEmpty then none
  else
    match (r1.drop ds.length).dropWhile Char.isWhitespace with
    | c :: _ => if c = '조' then some (String.mk ds) else none
    | [] => none

/-- Leftmost match of the article pattern, returning the digit group and
the characters before the match (reversed accumulator style). -/
def findArticleSplit (before : List Char) : List Char → Option (String × List Char)
  | [] => none
  | c :: rest =>
    if c = '제' then
      match matchArticleAfterJe rest with
      | some ds => some (ds, before.reverse)
      | none => findArticleSplit (c :: before) rest
    else findArticleSplit (c :: before) rest

/-- Source `splitTitle`: the article number comes from the leftmost match
of the article regex, and the inferred law name is the trimmed text before
that match (the whole trimmed title when there is no match).  Titles are
modelled as single-line (the JS `.*$` tail of the replace pattern always
matches in the absence of newlines); whitespace is `Char.isWhitespace`. -/
def splitTitle (t : String) : TitleParts :=
  match findArticleSplit [] t.data with
  | some (ds, pre) => ⟨some ds, jsTrim (String.mk pre)⟩
  | none => ⟨none, jsTrim t⟩

/-! ### `encodeURIComponent` -/

/-- Characters left untouched by JS `encodeURIComponent`. -/
def isUnreservedChar (c : Char) : Bool :=
  c.isAlpha || c.isDigit || c = '-' || c = '_' || c = '.' || c = '!' ||
    c = '~' || c = '*' || c = Char.ofNat 39 || c = '(' || c = ')'

/-- Uppercase hexadecimal digit. -/
def hexDigitChar (n : Nat) : Char :=
  if n < 10 then Char.ofNat (48 + n) else Char.ofNat (55 + n)

/-- UTF-8 bytes of a code point. -/
def utf8Bytes (n : Nat) : List Nat :=
  if n < 128 then [n]
  else if n < 2048 then [192 + n / 64, 128 + n % 64]
  else if n < 65536 then [224 + n / 4096, 128 + n / 64 % 64, 128 + n % 64]
  else [240 + n / 262144, 128 + n / 4096 % 64, 128 + n / 64 % 64, 128 + n % 64]

/-- Percent-encoding of one byte. -/
def percentByte (b : Nat) : List Char :=
  ['%', hexDigitChar (b / 16), hexDigitChar (b % 16)]

/-- JS `encodeURIComponent`: unreserved characters kept, all others
percent-encoded byte-wise in UTF-8. -/
def encodeURIComponent (s : String) : String :=
  String.mk (s.data.foldr
    (fun c acc =>
      (if isUnreservedChar c then [c] else (utf8Bytes c.toNat).flatMap percentByte) ++ acc)
    [])

/-! ### `buildLawUrl` (source lines 68-107) -/

/-- The static statute lookup table `categoryToLawNameMap`. -/
def categoryToLawNameMap (cat : String) : Option String :=
  if cat = "1" then some "산업안전보건법"
  else if cat = "2" then some "산업안전보건법 시행령"
  else if cat = "3" then some "산업안전보건법 시행규칙"
  else if cat = "4" then some "산업안전보건기준에관한규칙"
  else if cat = "8" then some "중대재해처벌법"
  else if cat = "9" then some "중대재해처벌법 시행령"
  else if cat = "11" then some "유해위험작업의 취업제한에 관한 규칙"
  else none

/-- The `articlePath` segment: `/제N조` when an article number was found. -/
def articlePath : Option String → String
  | some a => "/제" ++ a ++ "조"
  | none => ""

/-- The law name and URL kind selected by `buildLawUrl`'s two `if`
branches: the statute table gives the `법령` kind, category `"5"` the
`행정규칙` kind with the name inferred from the title. -/
def chosenLaw (item : KoshaBodyItem) : Option (String × String) :=
  match categoryToLawNameMap item.category with
  | some name => some (name, "법령")
  | none =>
    if item.category = "5" then some ((splitTitle item.title).inferredLawName, "행정규칙")
    else none

/-- Source `buildLawUrl`: statute-table categories get the `법령` kind with
the table name; category `"5"` gets the `행정규칙` kind with the name
inferred from the title; an empty law name or an unmapped category yields
no URL. -/
def buildLawUrl (item : KoshaBodyItem) : Option String :=
  match chosenLaw item with
  | none => none
  | some (lawName, kind) =>
    if lawName = "" then none
    else
      some ("https://www.law.go.kr/" ++
        (kind ++ "/" ++ encodeURIComponent lawName ++
          articlePath (splitTitle item.title).article))

/-! ### `isValidUrl` (source lines 113-121) -/

/-- Strip an expected character sequence from the front of a list. -/
def matchChars : List Char → List Char → Option (List Char)
  | [], cs => some cs
  | _, [] => none
  | p :: ps, c :: cs => if c = p then matchChars ps cs else none

/-- The authority component must be nonempty for the `new URL` constructor
to accept an http/https URL. -/
def authorityNonempty : List Char → Bool
  | [] => false
  | c :: _ => !(c = '/' || c = '?' || c = '#')

/-- Models the source's `new URL(u)`-plus-protocol check: success exactly
when the string carries an `http://` or `https://` scheme followed by a
nonempty authority. -/
def isValidUrlStr (s : String) : Bool :=
  match matchChars "http://".data s.data with
  | some rest => authorityNonempty rest
  | none =>
    match matchChars "https://".data s.data with
    | some rest => authorityNonempty rest
    | none => false

/-- Source `isValidUrl`: falsy input (absent or empty) is invalid. -/
def isValidUrl : Option String → Bool
  | none => false
  | some s => if s = "" then false else isValidUrlStr s

/-! ### `resolveFilepath` and `slim` (source lines 124-156) -/

/-- Source `resolveFilepath`: the canonical law URL always wins; otherwise
the upstream `filepath` verbatim when it is a valid absolute URL;
otherwise nothing (the item will be dropped). -/
def resolveFilepath (item : KoshaBodyItem) : Option String :=
  match buildLawUrl item with
  | some u => some u
  | none => if isValidUrl item.filepath then item.filepath else none

/-- Source line 139: `it.highlight_content ?? it.content ?? ''`. -/
def snippetOf (it : KoshaBodyItem) : String :=
  match it.highlight_content with
  | some h => h
  | none =>
    match it.content with
    | some c => c
    | none => ""

/-- The per-item body of `slim`'s map: `null` when the link does not
resolve or the snippet is empty, the outward record otherwise. -/
def slimMap (it : KoshaBodyItem) : Option SlimItem :=
  match resolveFilepath it with
  | none => none
  | some path =>
    if snippetOf it = "" then none
    else some ⟨it.doc_id, it.title, it.category, path, snippetOf it, it.score⟩

/-- Source `slim`: map each raw item to its outward form, dropping items
without a resolved link or with an empty snippet (`map` to nullable plus
`filter` in the source, fused here into `filterMap`). -/
def slim (items : List KoshaBodyItem) : List SlimItem :=
  items.filterMap slimMap

/-! ### `mapOpenApiError` (source lines 159-169) -/

/-- Severity class and user-facing message for an upstream result code. -/
structure MappedError where
  status : Nat
  msg : String
deriving DecidableEq, Repr

/-- Source `mapOpenApiError`: the fixed switch table, any other code
falling to the generic 502 class. -/
def mapOpenApiError (code : String) : MappedError :=
  if code = "22" then ⟨429, "일일 호출 한도를 초과했습니다."⟩
  else if code = "30" then ⟨401, "등록되지 않은 서비스 키입니다."⟩
  else if code = "31" then ⟨403, "API 활용 기간이 만료되었습니다."⟩
  else if code = "40" then ⟨400, "페이지 번호는 0보다 커야 합니다."⟩
  else if code = "42" then ⟨500, "KOSHA API 내부 오류가 발생했습니다."⟩
  else if code = "45" then ⟨403, "잘못된 접근입니다 (게이트웨이)."⟩
  else ⟨502, "KOSHA API 오류 (code " ++ code ++ ")"⟩

/-! ### Upstream envelope, cache, breaker and the handler (source lines 175-297) -/

/-- Upstream body after the source's defaulting: `items?.item ?? []` and
`total_media ?? []` are modelled as plain lists. -/
structure KoshaBody where
  totalCount : Int
  pageNo : Int
  numOfRows : Int
  items : List KoshaBodyItem
  total_media : List KoshaBodyItem
deriving DecidableEq, Repr

/-- What the transport would produce if invoked: a thrown error (network
failure after the retry policy, caught by the handler's `catch`), or a
delivered response with content type, HTTP status, upstream result code
and optional body.  A missing header also folds into `throws` (the field
access would raise). -/
inductive UpstreamOutcome where
  | throws
  | responds (contentTypeXml : Bool) (status : Nat) (resultCode : String)
      (body : Option KoshaBody)
deriving DecidableEq, Repr

/-- The normalized response envelope `lite`; `lastRefresh` keeps the
numeric timestamp of the call in place of the ISO string. -/
structure LiteResponse where
  totalCount : Int
  pageNo : Int
  numOfRows : Int
  items : List SlimItem
  lastRefresh : Nat
deriving DecidableEq, Repr

/-- The query cache as an association list; the TTL is not modelled (no
claim depends on expiry). -/
abbrev Cache := List (String × LiteResponse)

/-- `cache.get(key)`. -/
def cacheGet (c : Cache) (k : String) : Option LiteResponse :=
  match c.find? (fun p => p.1 == k) with
  | some p => some p.2
  | none => none

/-- `cache.set(key, v)`: replaces any previous entry under the key. -/
def cacheSet (c : Cache) (k : String) (v : LiteResponse) : Cache :=
  (k, v) :: c.filter (fun p => !(p.1 == k))

/-- `cache.del(key)`. -/
def cacheDel (c : Cache) (k : String) : Cache :=
  c.filter (fun p => !(p.1 == k))

/-- Source line 209: the template-literal cache key. -/
def cacheKey (sv : String) (category pageNo numOfRows : Int) : String :=
  sv ++ "|" ++ toString category ++ "|" ++ toString pageNo ++ "|" ++ toString numOfRows

/-- The process-wide circuit breaker variables. -/
structure BreakerState where
  failureCount : Nat
  circuitOpenUntil : Nat
deriving DecidableEq, Repr

/-- Process state shared across calls: breaker plus query cache. -/
structure ServerState where
  breaker : BreakerState
  cache : Cache
deriving DecidableEq, Repr

/-- The `catch` block's breaker update: increment, and at the threshold 5
open for 60 s and reset the counter. -/
def failStep (b : BreakerState) (now : Nat) : BreakerState :=
  if b.failureCount + 1 ≥ 5 then ⟨0, now + 60000⟩
  else ⟨b.failureCount + 1, b.circuitOpenUntil⟩

/-- Inbound arguments fragment: `searchValue` and `snippets` as they are
destructured, the three numeric parameters as raw JS values. -/
structure Args where
  searchValue : Option String
  pageNo : JSValue
  numOfRows : JSValue
  category : JSValue
  snippets : Option (List String)
deriving DecidableEq, Repr

/-- An inbound request. -/
structure Request where
  method : String
  function_name : Option String
  args : Args
deriving DecidableEq, Repr

/-- The three numeric parameters after default coercion (source lines
191-193). -/
structure CoercedArgs where
  pageNo : Int
  numOfRows : Int
  category : Int
deriving DecidableEq, Repr

/-- Source lines 191-193: `toSafeNumber` with defaults 1, 10, 0. -/
def coerceArgs (a : Args) : CoercedArgs :=
  ⟨toSafeNumber a.pageNo 1, toSafeNumber a.numOfRows 10, toSafeNumber a.category 0⟩

/-- The parameters handed to the transport (`koshaClient.get` params,
minus the constant service key and data type). -/
structure SearchCall where
  searchValue : String
  category : Int
  pageNo : Int
  numOfRows : Int
deriving DecidableEq, Repr

/-- The handler's possible responses, one constructor per `return`. -/
inductive HandlerResponse where
  | methodNotAllowed
  | circuitOpen
  | missingFunctionName
  | missingSearchValue
  | cachedResult (e : LiteResponse)
  | gatewayError
  | badStatus (s : Nat)
  | apiError (m : MappedError)
  | malformedBody
  | success (e : LiteResponse)
  | summary (s : String)
  | badSnippets
  | unknownFunction
  | internalError
deriving DecidableEq, Repr

/-- Result of one handler invocation: the response, the new shared state,
and the transport call made (`none` when no transport attempt happened). -/
structure HandlerResult where
  response : HandlerResponse
  state : ServerState
  transport : Option SearchCall
deriving DecidableEq, Repr

/-- The search branch from the transport call onward (source lines
214-271): XML gateway check, HTTP status check, upstream result code,
body presence, normalization, the no-empty-cache rule, and the breaker
bookkeeping (`catch` on a throw, counter reset on success). -/
def searchTransport (st : ServerState) (now : Nat) (call : SearchCall)
    (key : String) : UpstreamOutcome → HandlerResult
  | .throws => ⟨.internalError, ⟨failStep st.breaker now, st.cache⟩, some call⟩
  | .responds xml status code body? =>
    if xml then ⟨.gatewayError, st, some call⟩
    else if status ≠ 200 then ⟨.badStatus status, st, some call⟩
    else if code ≠ "00" then ⟨.apiError (mapOpenApiError code), st, some call⟩
    else
      match body? with
      | none => ⟨.malformedBody, st, some call⟩
      | some body =>
        let lite : LiteResponse :=
          ⟨body.totalCount, body.pageNo, body.numOfRows,
            slim (body.items ++ body.total_media), now⟩
        let cache' :=
          if lite.items.isEmpty then cacheDel st.cache key
          else cacheSet st.cache key lite
        ⟨.success lite, ⟨⟨0, st.breaker.circuitOpenUntil⟩, cache'⟩, some call⟩

/-- The `search_safety_law` branch after argument checks: cache lookup,
then the transport path on a miss. -/
def searchCase (st : ServerState) (now : Nat) (sv : String) (ca : CoercedArgs)
    (u : UpstreamOutcome) : HandlerResult :=
  let key := cacheKey sv ca.category ca.pageNo ca.numOfRows
  match cacheGet st.cache key with
  | some v => ⟨.cachedResult v, st, none⟩
  | none => searchTransport st now ⟨sv, ca.category, ca.pageNo, ca.numOfRows⟩ key u

/-- The full handler (source lines 175-297): method check, circuit-breaker
fail-fast, `function_name` check, default coercion, then the per-function
dispatch.  `u` stands for what the transport would produce if reached. -/
def handler (st : ServerState) (now : Nat) (req : Request)
    (u : UpstreamOutcome) : HandlerResult :=
  if req.method = "POST" then
    if now < st.breaker.circuitOpenUntil then ⟨.circuitOpen, st, none⟩
    else
      match req.function_name with
      | none => ⟨.missingFunctionName, st, none⟩
      | some fn =>
        if fn = "" then ⟨.missingFunctionName, st, none⟩
        else if fn = "search_safety_law" then
          match req.args.searchValue with
          | none => ⟨.missingSearchValue, st, none⟩
          | some sv =>
            if sv = "" then ⟨.missingSearchValue, st, none⟩
            else searchCase st now sv (coerceArgs req.args) u
        else if fn = "summarize_law_snippets" then
          match req.args.snippets with
          | none => ⟨.badSnippets, st, none⟩
          | some l =>
            if l.isEmpty then ⟨.badSnippets, st, none⟩
            else ⟨.summary (String.intercalate " / " (l.take 10)), st, none⟩
        else ⟨.unknownFunction, st, none⟩
  else ⟨.methodNotAllowed, st, none⟩

/-- Sequential composition of handler calls, threading the shared state. -/
def callSeq (st : ServerState) : List (Nat × Request × UpstreamOutcome) → ServerState
  | [] => st
  | (t, r, u) :: rest => callSeq (handler st t r u).state rest

/-- A call that passes every pre-transport check for `search_safety_law`:
POST, breaker closed, the function name, a nonempty `searchValue`, and a
cache miss under the coerced key. -/
def reachesSearch (st : ServerState) (now : Nat) (req : Request) (sv : String) : Prop :=
  req.method = "POST" ∧
  st.breaker.circuitOpenUntil ≤ now ∧
  req.function_name = some "search_safety_law" ∧
  req.args.searchValue = some sv ∧
  sv ≠ "" ∧
  cacheGet st.cache
    (cacheKey sv (coerceArgs req.args).category (coerceArgs req.args).pageNo
      (coerceArgs req.args).numOfRows) = none

instance (st : ServerState) (now : Nat) (req : Request) (sv : String) :
    Decidable (reachesSearch st now req sv) := by
  unfold reachesSearch
  infer_instance

/-! ### Concrete fixtures used by witnesses and counterexamples -/

/-- A primary-list law item (statute-table category). -/
def itemLaw : KoshaBodyItem :=
  ⟨"D1", "산업안전보건법 제38조", "1", none, some "본문A", none, none⟩

/-- A media item with the same `doc_id` as `itemLaw` and a valid upstream
URL. -/
def itemMedia : KoshaBodyItem :=
  ⟨"D1", "미디어 자료", "6", some "http://example.com/x", some "본문B", none, some 3⟩

/-- Upstream body carrying the same `doc_id` in both lists. -/
def bodyDup : KoshaBody := ⟨2, 1, 10, [itemLaw], [itemMedia]⟩

/-- Upstream body with no items at all. -/
def bodyEmpty : KoshaBody := ⟨0, 1, 10, [], []⟩

/-- An item whose highlight text is exactly the no-content placeholder
while its body text is real content. -/
def itemInv : KoshaBodyItem :=
  ⟨"D2", "산업안전보건법 제38조", "1", none, some "실제 내용", some "<!-- inv_blank -->", none⟩

/-- An item with a present-but-empty highlight text and a nonempty body
text. -/
def itemEmptyHl : KoshaBodyItem :=
  ⟨"D3", "산업안전보건법 제38조", "1", none, some "본문", some "", none⟩

/-- A statute-table item that also carries a valid upstream `filepath`,
to exercise the priority of the canonical URL. -/
def itemLawWithPath : KoshaBodyItem :=
  ⟨"D5", "산업안전보건법 제38조", "1", some "http://other.example/x", some "본문", none, none⟩

/-- An item with no canonical URL and no upstream `filepath`. -/
def itemNoLink : KoshaBodyItem :=
  ⟨"D6", "자료", "6", none, some "본문", none, none⟩

/-- The canonical registry URL of `itemLaw`. -/
def lawUrl38 : String :=
  "https://www.law.go.kr/" ++ ("법령/" ++ encodeURIComponent "산업안전보건법" ++ "/제38조")

/-- Standard search arguments with no numeric parameters supplied. -/
def argsStd : Args := ⟨some "사다리", .undef, .undef, .undef, none⟩

/-- A well-formed search request. -/
def reqSearch : Request := ⟨"POST", some "search_safety_law", argsStd⟩

/-- Search arguments supplying `numOfRows = 500`. -/
def args500 : Args := ⟨some "사다리", .undef, .num 500, .undef, none⟩

/-- A search request with `numOfRows = 500`. -/
def req500 : Request := ⟨"POST", some "search_safety_law", args500⟩

/-- A well-formed summarize request. -/
def reqSummarize : Request :=
  ⟨"POST", some "summarize_law_snippets", ⟨none, .undef, .undef, .undef, some ["조각"]⟩⟩

/-- A request naming an unknown function. -/
def reqUnknown : Request := ⟨"POST", some "mystery_function", argsStd⟩

/-- Fresh server state: breaker closed, empty cache. -/
def stEmpty : ServerState := ⟨⟨0, 0⟩, []⟩

/-! ### Helper lemmas -/

theorem string_data_append (s t : String) : (s ++ t).data = s.data ++ t.data := by
  obtain ⟨a⟩ := s
  obtain ⟨b⟩ := t
  rfl

theorem isValidUrlStr_lawUrl (rest : String) :
    isValidUrlStr ("https://www.law.go.kr/" ++ rest) = true := by
  unfold isValidUrlStr
  rw [string_data_append]
  rfl

/-- Every URL produced by `buildLawUrl` lives under the registry base. -/
theorem buildLawUrl_shape (it : KoshaBodyItem) (u : String)
    (h : buildLawUrl it = some u) :
    ∃ rest, u = "https://www.law.go.kr/" ++ rest := by
  unfold buildLawUrl at h
  split at h
  · exact absurd h (by simp)
  · split at h
    · exact absurd h (by simp)
    · exact ⟨_, (Option.some.inj h).symm⟩

/-- Everything `resolveFilepath` returns is a syntactically valid absolute
http/https URL in the sense of the embedded validity check. -/
theorem resolveFilepath_valid (it : KoshaBodyItem) (u : String)
    (h : resolveFilepath it = some u) : isValidUrlStr u = true := by
  unfold resolveFilepath at h
  split at h
  · rename_i u' hb
    obtain rfl := Option.some.inj h
    obtain ⟨rest, rfl⟩ := buildLawUrl_shape it u' hb
    exact isValidUrlStr_lawUrl rest
  · rename_i hb
    split at h
    · rename_i hv
      rw [h] at hv
      simp only [isValidUrl] at hv
      split at hv
      · exact absurd hv (by simp)
      · exact hv
    · exact absurd h (by simp)

/-- Membership in `slim`'s output comes from a source item whose link
resolved and whose snippet is nonempty. -/
theorem mem_slim (items : List KoshaBodyItem) (s : SlimItem)
    (h : s ∈ slim items) :
    ∃ it, it ∈ items ∧ resolveFilepath it = some s.filepath ∧
      snippetOf it = s.content_snippet ∧ s.content_snippet ≠ "" := by
  unfold slim at h
  obtain ⟨it, hmem, hf⟩ := List.mem_filterMap.1 h
  unfold slimMap at hf
  split at hf
  · exact absurd hf (by simp)
  · rename_i path hr
    split at hf
    · exact absurd hf (by simp)
    · rename_i hne
      obtain rfl := Option.some.inj hf
      exact ⟨it, hmem, hr, rfl, hne⟩

/-- A breaker-open POST call fails fast with the 503 response, leaves the
state untouched and makes no transport attempt. -/
theorem handler_open (st : ServerState) (now : Nat) (req : Request) (u : UpstreamOutcome)
    (hm : req.method = "POST") (hc : now < st.breaker.circuitOpenUntil) :
    handler st now req u = ⟨.circuitOpen, st, none⟩ := by
  simp only [handler, hm, if_pos hc]
  rfl

/-- A call passing every pre-transport check runs the transport branch
with the coerced parameters. -/
theorem handler_reach (st : ServerState) (now : Nat) (req : Request) (sv : String)
    (u : UpstreamOutcome) (h : reachesSearch st now req sv) :
    handler st now req u =
      searchTransport st now
        ⟨sv, (coerceArgs req.args).category, (coerceArgs req.args).pageNo,
          (coerceArgs req.args).numOfRows⟩
        (cacheKey sv (coerceArgs req.args).category (coerceArgs req.args).pageNo
          (coerceArgs req.args).numOfRows) u := by
  obtain ⟨hm, hc, hf, hsv, hne, hmiss⟩ := h
  simp only [handler, hm, hf, hsv, searchCase, hmiss, if_neg (Nat.not_lt.mpr hc), if_neg hne]
  rfl

/-- A cache hit is served directly, without touching state or transport. -/
theorem handler_hit (st : ServerState) (now : Nat) (req : Request) (sv : String)
    (v : LiteResponse) (u : UpstreamOutcome)
    (hm : req.method = "POST") (hc : st.breaker.circuitOpenUntil ≤ now)
    (hf : req.function_name = some "search_safety_law")
    (hsv : req.args.searchValue = some sv) (hne : sv ≠ "")
    (hhit : cacheGet st.cache
      (cacheKey sv (coerceArgs req.args).category (coerceArgs req.args).pageNo
        (coerceArgs req.args).numOfRows) = some v) :
    handler st now req u = ⟨.cachedResult v, st, none⟩ := by
  simp only [handler, hm, hf, hsv, searchCase, hhit, if_neg (Nat.not_lt.mpr hc), if_neg hne]
  rfl

/-- Whatever the upstream outcome, the transport branch records the call. -/
theorem searchTransport_transport (st : ServerState) (now : Nat) (call : SearchCall)
    (key : String) (u : UpstreamOutcome) :
    (searchTransport st now call key u).transport = some call := by
  cases u with
  | throws => rfl
  | responds xml status code b =>
    unfold searchTransport
    repeat' split
    all_goals rfl

/-- The transport branch on a fully successful upstream response. -/
theorem searchTransport_success (st : ServerState) (now : Nat) (call : SearchCall)
    (key : String) (body : KoshaBody) :
    searchTransport st now call key (.responds false 200 "00" (some body)) =
      ⟨.success ⟨body.totalCount, body.pageNo, body.numOfRows,
          slim (body.items ++ body.total_media), now⟩,
        ⟨⟨0, st.breaker.circuitOpenUntil⟩,
          if (slim (body.items ++ body.total_media)).isEmpty then
            cacheDel st.cache key
          else
            cacheSet st.cache key ⟨body.totalCount, body.pageNo, body.numOfRows,
              slim (body.items ++ body.total_media), now⟩⟩,
        some call⟩ := rfl

theorem find?_del (c : Cache) (k : String) :
    (c.filter (fun p => !(p.1 == k))).find? (fun p => p.1 == k) = none := by
  induction c with
  | nil => rfl
  | cons p rest ih =>
    rw [List.filter_cons]
    by_cases hp : (p.1 == k) = true
    · simp [hp, ih]
    · have hp' : (p.1 == k) = false := by simpa using hp
      simp [hp', List.find?, ih]

/-- A deleted key is absent. -/
theorem cacheGet_del (c : Cache) (k : String) : cacheGet (cacheDel c k) k = none := by
  unfold cacheGet cacheDel
  rw [find?_del]

/-- A freshly stored key is found. -/
theorem cacheGet_set (c : Cache) (k : String) (v : LiteResponse) :
    cacheGet (cacheSet c k v) k = some v := by
  unfold cacheGet cacheSet
  simp [List.find?]

/-- The statute table never yields an empty law name. -/
theorem lawName_ne_empty (cat : String) : categoryToLawNameMap cat ≠ some "" := by
  unfold categoryToLawNameMap
  repeat' split
  all_goals decide

/-! ### Claim theorems -/

/-- Claim C1: every item in a normalized response carries a syntactically
valid absolute http/https `filepath` and a nonempty `content_snippet`, and
an item whose link does not resolve or whose snippet is empty is dropped
from the output. -/
theorem claim_C1 :
    (∀ (items : List KoshaBodyItem) (s : SlimItem), s ∈ slim items →
      isValidUrlStr s.filepath = true ∧ s.content_snippet ≠ "") ∧
    (∀ (it : KoshaBodyItem) (rest : List KoshaBodyItem),
      resolveFilepath it = none ∨ snippetOf it = "" → slim (it :: rest) = slim rest) := by
  constructor
  · intro items s h
    obtain ⟨it, _, hr, _, hne⟩ := mem_slim items s h
    exact ⟨resolveFilepath_valid it s.filepath hr, hne⟩
  · intro it rest h
    have hnone : slimMap it = none := by
      unfold slimMap
      rcases h with h | h
      · rw [h]
      · split
        · rfl
        · rw [if_pos h]
    unfold slim
    rw [List.filterMap_cons, hnone]

/-- Closed instance of claim C1 on a concrete normalized item. -/
theorem claim_C1_witness :
    (isValidUrlStr (⟨"D1", "산업안전보건법 제38조", "1", lawUrl38, "본문A", none⟩ : SlimItem).filepath = true ∧
      (⟨"D1", "산업안전보건법 제38조", "1", lawUrl38, "본문A", none⟩ : SlimItem).content_snippet ≠ "") ∧
    slim [⟨"D4", "자료", "6", none, some "본문", none, none⟩] = slim [] :=
  ⟨claim_C1.1 [itemLaw] _ (by decide),
    claim_C1.2 ⟨"D4", "자료", "6", none, some "본문", none, none⟩ [] (Or.inl (by decide))⟩

/-- Claim C2 fails on the final handler iteration: a `doc_id` present in
both the primary document list and the media list yields two entries in
the normalized output (the success response built from `bodyDup` carries
two items with `doc_id` D1), not exactly one. -/
theorem claim_C2_counterexample :
    (handler stEmpty 0 reqSearch (.responds false 200 "00" (some bodyDup))).response =
      .success ⟨2, 1, 10, slim (bodyDup.items ++ bodyDup.total_media), 0⟩ ∧
    ((slim (bodyDup.items ++ bodyDup.total_media)).filter
      (fun s => s.doc_id == "D1")).length = 2 := ⟨rfl, rfl⟩

/-- Claim C2 (amended): the final handler performs no deduplication —
normalization is `slim` of the concatenated lists, so the number of output
entries for a `documentId` is the sum of its surviving occurrences in the
primary and secondary lists (two when it survives in both). -/
theorem claim_C2 :
    ∀ (primary secondary : List KoshaBodyItem) (d : String),
      ((slim (primary ++ secondary)).filter (fun s => s.doc_id == d)).length =
        ((slim primary).filter (fun s => s.doc_id == d)).length +
          ((slim secondary).filter (fun s => s.doc_id == d)).length := by
  intro p s d
  unfold slim
  rw [List.filterMap_append, List.filter_append, List.length_append]

/-- Claim C3: link resolution returns, in priority order, the canonical
registry URL (from the statute table, or for category 5 from the law name
inferred from the title) — winning even over a supplied `filepath` —
otherwise the upstream `filepath` verbatim when it is a valid absolute
http/https URL, otherwise nothing, with no fabricated fallback. -/
theorem claim_C3 :
    ∀ (it : KoshaBodyItem),
      (∀ u, buildLawUrl it = some u → resolveFilepath it = some u) ∧
      (∀ name, categoryToLawNameMap it.category = some name →
        buildLawUrl it = some ("https://www.law.go.kr/" ++
          ("법령" ++ "/" ++ encodeURIComponent name ++
            articlePath (splitTitle it.title).article))) ∧
      (it.category = "5" → (splitTitle it.title).inferredLawName ≠ "" →
        buildLawUrl it = some ("https://www.law.go.kr/" ++
          ("행정규칙" ++ "/" ++ encodeURIComponent (splitTitle it.title).inferredLawName ++
            articlePath (splitTitle it.title).article))) ∧
      (buildLawUrl it = none → isValidUrl it.filepath = true →
        resolveFilepath it = it.filepath) ∧
      (buildLawUrl it = none → isValidUrl it.filepath = false →
        resolveFilepath it = none) := by
  intro it
  refine ⟨?_, ?_, ?_, ?_, ?_⟩
  · intro u hu
    unfold resolveFilepath
    rw [hu]
  · intro name hname
    have hne : name ≠ "" := fun e => lawName_ne_empty it.category (e ▸ hname)
    have hch : chosenLaw it = some (name, "법령") := by
      unfold chosenLaw
      rw [hname]
    simp only [buildLawUrl, hch, if_neg hne]
  · intro h5 hne
    have hch : chosenLaw it = some ((splitTitle it.title).inferredLawName, "행정규칙") := by
      unfold chosenLaw
      rw [h5]
      rfl
    simp only [buildLawUrl, hch, if_neg hne]
  · intro hb hv
    simp only [resolveFilepath, hb, hv]
    rfl
  · intro hb hv
    simp only [resolveFilepath, hb, hv]
    rfl

/-- Closed instance of claim C3: the canonical URL wins over a supplied
`filepath`; a valid `filepath` is passed through verbatim; an unresolvable
item gets no URL. -/
theorem claim_C3_witness :
    resolveFilepath itemLawWithPath = some lawUrl38 ∧
    resolveFilepath itemMedia = itemMedia.filepath ∧
    resolveFilepath itemNoLink = none :=
  ⟨(claim_C3 itemLawWithPath).1 lawUrl38 (by decide),
   (claim_C3 itemMedia).2.2.2.1 (by decide) (by decide),
   (claim_C3 itemNoLink).2.2.2.2 (by decide) (by decide)⟩

/-- Claim C4: five consecutive thrown upstream failures (each reaching the
transport) open the breaker for exactly 60 s from the fifth failure and
reset the counter; while open every POST call fails fast with no transport
attempt and unchanged state; once the cooldown has elapsed the next call
is attempted again; and a successful upstream round trip resets the
failure counter to zero. -/
theorem claim_C4 :
    ∀ (st : ServerState) (req : Request) (sv : String) (t1 t2 t3 t4 t5 : Nat),
      st.breaker.failureCount = 0 →
      reachesSearch st t1 req sv →
      st.breaker.circuitOpenUntil ≤ t2 → st.breaker.circuitOpenUntil ≤ t3 →
      st.breaker.circuitOpenUntil ≤ t4 → st.breaker.circuitOpenUntil ≤ t5 →
      callSeq st [(t1, req, .throws), (t2, req, .throws), (t3, req, .throws),
        (t4, req, .throws), (t5, req, .throws)] = ⟨⟨0, t5 + 60000⟩, st.cache⟩ ∧
      (∀ (t : Nat) (req' : Request) (u : UpstreamOutcome), req'.method = "POST" →
        t < t5 + 60000 →
        handler ⟨⟨0, t5 + 60000⟩, st.cache⟩ t req' u =
          ⟨.circuitOpen, ⟨⟨0, t5 + 60000⟩, st.cache⟩, none⟩) ∧
      (∀ (t : Nat) (u : UpstreamOutcome), t5 + 60000 ≤ t →
        (handler ⟨⟨0, t5 + 60000⟩, st.cache⟩ t req u).transport =
          some ⟨sv, (coerceArgs req.args).category, (coerceArgs req.args).pageNo,
            (coerceArgs req.args).numOfRows⟩) ∧
      (∀ (st' : ServerState) (now : Nat) (req' : Request) (sv' : String) (body : KoshaBody),
        reachesSearch st' now req' sv' →
        ((handler st' now req' (.responds false 200 "00" (some body))).state).breaker.failureCount
          = 0) := by
  intro st req sv t1 t2 t3 t4 t5 h0 hreach hc2 hc3 hc4 hc5
  obtain ⟨⟨fc, ou⟩, cache⟩ := st
  simp only at h0 hc2 hc3 hc4 hc5
  subst h0
  obtain ⟨hm, hc1, hf, hsv, hne, hmiss⟩ := hreach
  simp only at hc1 hmiss
  have e1 : (handler ⟨⟨0, ou⟩, cache⟩ t1 req .throws).state = ⟨⟨1, ou⟩, cache⟩ := by
    rw [handler_reach _ t1 req sv .throws ⟨hm, hc1, hf, hsv, hne, hmiss⟩]
    rfl
  have e2 : (handler ⟨⟨1, ou⟩, cache⟩ t2 req .throws).state = ⟨⟨2, ou⟩, cache⟩ := by
    rw [handler_reach _ t2 req sv .throws ⟨hm, hc2, hf, hsv, hne, hmiss⟩]
    rfl
  have e3 : (handler ⟨⟨2, ou⟩, cache⟩ t3 req .throws).state = ⟨⟨3, ou⟩, cache⟩ := by
    rw [handler_reach _ t3 req sv .throws ⟨hm, hc3, hf, hsv, hne, hmiss⟩]
    rfl
  have e4 : (handler ⟨⟨3, ou⟩, cache⟩ t4 req .throws).state = ⟨⟨4, ou⟩, cache⟩ := by
    rw [handler_reach _ t4 req sv .throws ⟨hm, hc4, hf, hsv, hne, hmiss⟩]
    rfl
  have e5 : (handler ⟨⟨4, ou⟩, cache⟩ t5 req .throws).state = ⟨⟨0, t5 + 60000⟩, cache⟩ := by
    rw [handler_reach _ t5 req sv .throws ⟨hm, hc5, hf, hsv, hne, hmiss⟩]
    rfl
  refine ⟨?_, ?_, ?_, ?_⟩
  · simp only [callSeq, e1, e2, e3, e4, e5]
  · intro t req' u hm' hlt
    exact handler_open _ t req' u hm' hlt
  · intro t u ht
    rw [handler_reach _ t req sv u ⟨hm, ht, hf, hsv, hne, hmiss⟩]
    exact searchTransport_transport _ t _ _ u
  · intro st' now req' sv' body hreach'
    rw [handler_reach st' now req' sv' _ hreach']
    rfl

/-- Closed instance of claim C4: five failed calls at times 0..4 open the
breaker until 60004; a call at 100 fails fast; a call at 70000 reaches
transport again; and a successful call leaves the counter at zero. -/
theorem claim_C4_witness :
    callSeq stEmpty [(0, reqSearch, .throws), (1, reqSearch, .throws), (2, reqSearch, .throws),
      (3, reqSearch, .throws), (4, reqSearch, .throws)] = ⟨⟨0, 60004⟩, []⟩ ∧
    handler ⟨⟨0, 60004⟩, []⟩ 100 reqSummarize .throws =
      ⟨.circuitOpen, ⟨⟨0, 60004⟩, []⟩, none⟩ ∧
    (handler ⟨⟨0, 60004⟩, []⟩ 70000 reqSearch .throws).transport =
      some ⟨"사다리", 0, 1, 10⟩ ∧
    ((handler stEmpty 0 reqSearch
      (.responds false 200 "00" (some bodyDup))).state).breaker.failureCount = 0 := by
  obtain ⟨a, b, c, d⟩ := claim_C4 stEmpty reqSearch "사다리" 0 1 2 3 4 rfl (by decide)
    (by decide) (by decide) (by decide) (by decide)
  exact ⟨a, b 100 reqSummarize .throws rfl (by decide), c 70000 .throws (by decide),
    d stEmpty 0 reqSearch "사다리" bodyDup (by decide)⟩

/-- Claim C5: a successful search whose normalization yields zero items is
not stored (the key is absent afterwards, so an identical call re-invokes
the transport), while a search yielding at least one item is stored under
its key and an identical call is served from the cache without transport. -/
theorem claim_C5 :
    ∀ (st : ServerState) (now : Nat) (req : Request) (sv : String) (body : KoshaBody),
      reachesSearch st now req sv →
      (slim (body.items ++ body.total_media) = [] →
        cacheGet ((handler st now req (.responds false 200 "00" (some body))).state).cache
          (cacheKey sv (coerceArgs req.args).category (coerceArgs req.args).pageNo
            (coerceArgs req.args).numOfRows) = none ∧
        (∀ (t : Nat) (u : UpstreamOutcome), st.breaker.circuitOpenUntil ≤ t →
          (handler ((handler st now req (.responds false 200 "00" (some body))).state)
            t req u).transport =
            some ⟨sv, (coerceArgs req.args).category, (coerceArgs req.args).pageNo,
              (coerceArgs req.args).numOfRows⟩)) ∧
      (slim (body.items ++ body.total_media) ≠ [] →
        cacheGet ((handler st now req (.responds false 200 "00" (some body))).state).cache
          (cacheKey sv (coerceArgs req.args).category (coerceArgs req.args).pageNo
            (coerceArgs req.args).numOfRows) =
          some ⟨body.totalCount, body.pageNo, body.numOfRows,
            slim (body.items ++ body.total_media), now⟩ ∧
        (∀ (t : Nat) (u : UpstreamOutcome), st.breaker.circuitOpenUntil ≤ t →
          handler ((handler st now req (.responds false 200 "00" (some body))).state) t req u =
            ⟨.cachedResult ⟨body.totalCount, body.pageNo, body.numOfRows,
              slim (body.items ++ body.total_media), now⟩,
              (handler st now req (.responds false 200 "00" (some body))).state, none⟩)) := by
  intro st now req sv body hreach
  obtain ⟨hm, hc, hf, hsv, hne, hmiss⟩ := hreach
  constructor
  · intro hempty
    have hstate : (handler st now req (.responds false 200 "00" (some body))).state =
        ⟨⟨0, st.breaker.circuitOpenUntil⟩,
          cacheDel st.cache (cacheKey sv (coerceArgs req.args).category
            (coerceArgs req.args).pageNo (coerceArgs req.args).numOfRows)⟩ := by
      rw [handler_reach st now req sv _ ⟨hm, hc, hf, hsv, hne, hmiss⟩,
        searchTransport_success, hempty]
      rfl
    rw [hstate]
    refine ⟨cacheGet_del _ _, ?_⟩
    intro t u ht
    rw [handler_reach ⟨⟨0, st.breaker.circuitOpenUntil⟩,
        cacheDel st.cache (cacheKey sv (coerceArgs req.args).category
          (coerceArgs req.args).pageNo (coerceArgs req.args).numOfRows)⟩
      t req sv u ⟨hm, ht, hf, hsv, hne, cacheGet_del _ _⟩]
    exact searchTransport_transport _ t _ _ u
  · intro hnonempty
    have hie : (slim (body.items ++ body.total_media)).isEmpty = false := by
      rcases hsl : slim (body.items ++ body.total_media) with _ | ⟨x, xs⟩
      · exact absurd hsl hnonempty
      · rfl
    have hstate : (handler st now req (.responds false 200 "00" (some body))).state =
        ⟨⟨0, st.breaker.circuitOpenUntil⟩,
          cacheSet st.cache (cacheKey sv (coerceArgs req.args).category
            (coerceArgs req.args).pageNo (coerceArgs req.args).numOfRows)
            ⟨body.totalCount, body.pageNo, body.numOfRows,
              slim (body.items ++ body.total_media), now⟩⟩ := by
      rw [handler_reach st now req sv _ ⟨hm, hc, hf, hsv, hne, hmiss⟩,
        searchTransport_success, hie]
      rfl
    rw [hstate]
    refine ⟨cacheGet_set _ _ _, ?_⟩
    intro t u ht
    exact handler_hit _ t req sv _ u hm ht hf hsv hne (cacheGet_set _ _ _)

/-- Closed instance of claim C5: an empty result leaves no cache entry and
the next identical call reaches transport; a two-item result is stored. -/
theorem claim_C5_witness :
    cacheGet ((handler stEmpty 0 reqSearch
        (.responds false 200 "00" (some bodyEmpty))).state).cache
      (cacheKey "사다리" 0 1 10) = none ∧
    (handler ((handler stEmpty 0 reqSearch
        (.responds false 200 "00" (some bodyEmpty))).state) 1 reqSearch .throws).transport =
      some ⟨"사다리", 0, 1, 10⟩ ∧
    cacheGet ((handler stEmpty 0 reqSearch
        (.responds false 200 "00" (some bodyDup))).state).cache
      (cacheKey "사다리" 0 1 10) =
      some ⟨2, 1, 10, slim (bodyDup.items ++ bodyDup.total_media), 0⟩ := by
  obtain ⟨a, _⟩ := claim_C5 stEmpty 0 reqSearch "사다리" bodyEmpty (by decide)
  obtain ⟨ha1, ha2⟩ := a rfl
  obtain ⟨_, b⟩ := claim_C5 stEmpty 0 reqSearch "사다리" bodyDup (by decide)
  obtain ⟨hb1, _⟩ := b (by decide)
  exact ⟨ha1, ha2 1 .throws (by decide), hb1⟩

/-- Claim C6 fails on the final handler iteration: a snippet that is
exactly the no-content placeholder marker is kept verbatim (the item is
not dropped), and a present-but-empty highlight text is not replaced by
the body text (the item is dropped instead). -/
theorem claim_C6_counterexample :
    slim [itemInv] =
      [⟨"D2", "산업안전보건법 제38조", "1", lawUrl38, "<!-- inv_blank -->", none⟩] ∧
    slim [itemEmptyHl] = [] := ⟨rfl, rfl⟩

/-- Claim C6 (amended): the snippet is the highlight text whenever present
(even when empty), else the body text when present, else the empty string;
the chosen snippet is used verbatim with no placeholder substitution; an
empty chosen snippet disqualifies the item. -/
theorem claim_C6 :
    ∀ (it : KoshaBodyItem),
      (∀ h, it.highlight_content = some h → snippetOf it = h) ∧
      (it.highlight_content = none → ∀ c, it.content = some c → snippetOf it = c) ∧
      (it.highlight_content = none → it.content = none → snippetOf it = "") ∧
      (snippetOf it = "" → slim [it] = []) ∧
      (∀ path, resolveFilepath it = some path → snippetOf it ≠ "" →
        slim [it] = [⟨it.doc_id, it.title, it.category, path, snippetOf it, it.score⟩]) := by
  intro it
  refine ⟨?_, ?_, ?_, ?_, ?_⟩
  · intro h hh
    unfold snippetOf
    rw [hh]
  · intro hh c hcc
    unfold snippetOf
    rw [hh, hcc]
  · intro hh hcc
    unfold snippetOf
    rw [hh, hcc]
  · intro hs
    unfold slim
    rw [List.filterMap_cons]
    have : slimMap it = none := by
      unfold slimMap
      split
      · rfl
      · rw [if_pos hs]
    rw [this]
    rfl
  · intro path hp hs
    unfold slim
    rw [List.filterMap_cons]
    have : slimMap it = some ⟨it.doc_id, it.title, it.category, path, snippetOf it, it.score⟩ := by
      unfold slimMap
      rw [hp]
      exact if_neg hs
    rw [this]
    rfl

/-- Closed instance of claim C6 on concrete items. -/
theorem claim_C6_witness :
    snippetOf itemLaw = "본문A" ∧
    slim [itemEmptyHl] = [] ∧
    slim [itemLaw] = [⟨"D1", "산업안전보건법 제38조", "1", lawUrl38, "본문A", none⟩] :=
  ⟨(claim_C6 itemLaw).2.1 rfl "본문A" rfl,
   (claim_C6 itemEmptyHl).2.2.2.1 rfl,
   (claim_C6 itemLaw).2.2.2.2 lawUrl38 (by decide) (by decide)⟩

/-- Claim C7: the dispatcher coerces `pageNo = 0` and `pageNo = "abc"` to
1 and `numOfRows = -5` to 10; in general a value is kept exactly when it
coerces to a finite number strictly greater than zero, and otherwise the
defaults 1, 10 and 0 are substituted. -/
theorem claim_C7 :
    toSafeNumber (.num 0) 1 = 1 ∧
    toSafeNumber (.str "abc") 1 = 1 ∧
    toSafeNumber (.num (-5)) 10 = 10 ∧
    (∀ a : Args, coerceArgs a =
      ⟨toSafeNumber a.pageNo 1, toSafeNumber a.numOfRows 10, toSafeNumber a.category 0⟩) ∧
    (∀ (v : JSValue) (d n : Int), toNumber v = .finite n → 0 < n → toSafeNumber v d = n) ∧
    (∀ (v : JSValue) (d : Int), (∀ n : Int, toNumber v = .finite n → n ≤ 0) →
      toSafeNumber v d = d) := by
  refine ⟨rfl, rfl, rfl, fun a => rfl, ?_, ?_⟩
  · intro v d n htn hn
    unfold toSafeNumber
    rw [htn]
    exact if_pos hn
  · intro v d hall
    unfold toSafeNumber
    rcases htn : toNumber v with _ | _ | _ | n
    · rfl
    · rfl
    · rfl
    · exact if_neg (not_lt.mpr (hall n htn))

/-- Closed instance of claim C7: a positive finite value is kept, a
non-numeric string falls to the default. -/
theorem claim_C7_witness :
    toSafeNumber (.num 7) 1 = 7 ∧ toSafeNumber (.str "abc") 1 = 1 :=
  ⟨claim_C7.2.2.2.2.1 (.num 7) 1 7 rfl (by decide),
   claim_C7.2.2.2.2.2 (.str "abc") 1 (fun n h => JSNum.noConfusion h)⟩

/-- Claim C8: the error classifier maps code 22 to 429, 30 to 401, 31 to
403 and 40 to 400, and every code outside the fixed table (22, 30, 31, 40,
42, 45) to the generic 502 upstream-failure class. -/
theorem claim_C8 :
    mapOpenApiError "22" = ⟨429, "일일 호출 한도를 초과했습니다."⟩ ∧
    mapOpenApiError "30" = ⟨401, "등록되지 않은 서비스 키입니다."⟩ ∧
    mapOpenApiError "31" = ⟨403, "API 활용 기간이 만료되었습니다."⟩ ∧
    mapOpenApiError "40" = ⟨400, "페이지 번호는 0보다 커야 합니다."⟩ ∧
    (∀ code : String, code ≠ "22" → code ≠ "30" → code ≠ "31" → code ≠ "40" →
      code ≠ "42" → code ≠ "45" →
      mapOpenApiError code = ⟨502, "KOSHA API 오류 (code " ++ code ++ ")"⟩) := by
  refine ⟨rfl, rfl, rfl, rfl, ?_⟩
  intro code h22 h30 h31 h40 h42 h45
  unfold mapOpenApiError
  rw [if_neg h22, if_neg h30, if_neg h31, if_neg h40, if_neg h42, if_neg h45]

/-- Closed instance of claim C8 on an unrecognized code. -/
theorem claim_C8_witness :
    mapOpenApiError "99" = ⟨502, "KOSHA API 오류 (code " ++ "99" ++ ")"⟩ :=
  claim_C8.2.2.2.2 "99" (by decide) (by decide) (by decide) (by decide) (by decide)
    (by decide)

/-- Claim C9 fails on the code: no max-100 clamp exists — a supplied
`numOfRows` of 500 is kept by the coercion and used as-is in both the
transport call and the cache key. -/
theorem claim_C9_counterexample :
    toSafeNumber (.num 500) 10 = 500 ∧
    (handler stEmpty 0 req500 .throws).transport = some ⟨"사다리", 0, 1, 500⟩ ∧
    cacheKey "사다리" 0 1 500 = "사다리|0|1|500" := ⟨rfl, rfl, rfl⟩

/-- Claim C9 (amended): any `numOfRows` coercing to a finite number
strictly greater than zero — with no upper bound — is used as-is for the
transport call (and hence the cache key, which is built from the same
coerced value). -/
theorem claim_C9 :
    ∀ (st : ServerState) (now : Nat) (req : Request) (sv : String) (n : Int)
      (u : UpstreamOutcome),
      reachesSearch st now req sv →
      toNumber req.args.numOfRows = .finite n → 0 < n →
      (handler st now req u).transport =
        some ⟨sv, (coerceArgs req.args).category, (coerceArgs req.args).pageNo, n⟩ := by
  intro st now req sv n u h htn hn
  rw [handler_reach st now req sv u h, searchTransport_transport]
  have : (coerceArgs req.args).numOfRows = n := by
    show toSafeNumber req.args.numOfRows 10 = n
    unfold toSafeNumber
    rw [htn]
    exact if_pos hn
  rw [this]

/-- Closed instance of the amended claim C9 at `numOfRows = 500`. -/
theorem claim_C9_witness :
    (handler stEmpty 0 req500 .throws).transport = some ⟨"사다리", 0, 1, 500⟩ :=
  claim_C9 stEmpty 0 req500 "사다리" 500 .throws (by decide) rfl (by decide)

/-- Claim C10: while the breaker is open, every POST request — whatever
its `function_name`, including the summarize function and unknown names —
receives the fail-fast 503 response, with no transport attempt and no
state change. -/
theorem claim_C10 :
    ∀ (st : ServerState) (now : Nat) (req : Request) (u : UpstreamOutcome),
      req.method = "POST" → now < st.breaker.circuitOpenUntil →
      handler st now req u = ⟨.circuitOpen, st, none⟩ :=
  fun st now req u hm hc => handler_open st now req u hm hc

/-- Closed instance of claim C10 for a summarize request and an unknown
function name under an open breaker. -/
theorem claim_C10_witness :
    handler ⟨⟨0, 99⟩, []⟩ 5 reqSummarize .throws = ⟨.circuitOpen, ⟨⟨0, 99⟩, []⟩, none⟩ ∧
    handler ⟨⟨0, 99⟩, []⟩ 5 reqUnknown .throws = ⟨.circuitOpen, ⟨⟨0, 99⟩, []⟩, none⟩ :=
  ⟨claim_C10 ⟨⟨0, 99⟩, []⟩ 5 reqSummarize .throws rfl (by decide),
   claim_C10 ⟨⟨0, 99⟩, []⟩ 5 reqUnknown .throws rfl (by decide)⟩

end Safety
